import Mathlib

/-!
Verification of the RTEgetData host utility (serial wire protocol, memory
bridge and transfer orchestration).  The definitions below are a shallow
embedding of the C++ sources (`Code/com_lib.cpp`, `Code/bridge.cpp`,
`Code/RTEgetData.cpp`); machine integers are modelled as `Nat` with explicit
truncation where the C code truncates, byte channels and the embedded target
are modelled as explicit oracles, and I/O effects are recorded as event
traces.
-/

namespace RTEgetData

/-! ### Constants from `RTEgetData.h` and `rte_com.h` -/

def RTE_OK : Nat := 0

def RTE_ERROR : Nat := 1

/-- Initial checksum value (seed); also the ACK byte (`rte_com.h`). -/
def RTECOM_CHECKSUM : Nat := 0x0F

def RTECOM_ACK : Nat := RTECOM_CHECKSUM

/-- `rte_com_command_t`: `RTECOM_WRITE_RTEDBG` is the first enumerator. -/
def RTECOM_WRITE_RTEDBG : Nat := 0

def RTECOM_READ_RTEDBG : Nat := 1

/-- Host always sends 10 bytes: command, checksum, address (32 b), data (32 b). -/
def RTECOM_SEND_PACKET_LEN : Nat := 10

/-- Maximal packet length while receiving data over a COM port (`RTEgetData.h`). -/
def RTECOM_MAX_RECV_LEN : Nat := 65536 - 16

def MIN_BUFFER_SIZE : Nat := 64 + 16

def MAX_BUFFER_SIZE : Nat := 2100000

/-! ### Little-endian byte decomposition of 32-bit fields

The packet is assembled on a little-endian host from the `uint32_t` fields
`message.address` and `message.data` of `rtecom_send_data_t`. -/

/-- Byte `i` of the little-endian representation of a 32-bit value. -/
def le_byte (x i : Nat) : Nat := x / 256 ^ i % 256

/-- The four little-endian bytes of a 32-bit value. -/
def le_bytes4 (x : Nat) : List Nat := [le_byte x 0, le_byte x 1, le_byte x 2, le_byte x 3]

/-- Recompose a 32-bit value from four little-endian bytes. -/
def le_word (bytes : List Nat) : Nat :=
  bytes.getD 0 0 + 256 * (bytes.getD 1 0 + 256 * (bytes.getD 2 0 + 256 * bytes.getD 3 0))

theorem le_word_le_bytes4 (x : Nat) : le_word (le_bytes4 x) = x % 2 ^ 32 := by
  simp only [le_word, le_bytes4, le_byte, List.getD]
  simp only [List.get?, Option.getD]
  omega

/-! ### `com_send_command` (com_lib.cpp): packet construction and checksum -/

/-- The eight address+data bytes of the message, in transmission order
(bytes of `message.address` then bytes of `message.data`, little-endian). -/
def addr_data_bytes (address data : Nat) : List Nat := le_bytes4 address ++ le_bytes4 data

/-- The checksum loop of `com_send_command`: XOR the seed `RTECOM_CHECKSUM`
across the 8 bytes starting at `&message.address`. -/
def packet_checksum (address data : Nat) : Nat :=
  (addr_data_bytes address data).foldl (fun acc b => acc ^^^ b) RTECOM_CHECKSUM

/-- The 10 bytes transmitted by `com_send_command`, starting at
`&message.command`: command, checksum, address (LE), data (LE). -/
def com_send_command_packet (command address data : Nat) : List Nat :=
  command % 256 :: packet_checksum address data :: addr_data_bytes address data

theorem com_send_command_packet_length (command address data : Nat) :
    (com_send_command_packet command address data).length = RTECOM_SEND_PACKET_LEN := by
  simp [com_send_command_packet, addr_data_bytes, le_bytes4, RTECOM_SEND_PACKET_LEN]

/-! ### `check_response` (com_lib.cpp)

The single response byte read back after a write command.  `none` models a
failed `ReadFile` or zero bytes received (timeout); `some b` models byte `b`
received. -/

def check_response (command : Nat) (received : Option Nat) : Nat :=
  match received with
  | none => RTE_ERROR
  | some data =>
    if data = RTECOM_ACK then RTE_OK
    else if data = command then RTE_ERROR   -- NACK received
    else RTE_ERROR                          -- bad response, purge

/-- C1: every packet built by `com_send_command` carries as its checksum byte
the seed `0x0F` XORed with each of the 8 address+data bytes of the packet;
and `check_response`, awaiting a write response, succeeds exactly on the
ACK byte `0x0F` — the echoed write command (NACK), any other byte value and
a missing byte all yield `RTE_ERROR`. -/
theorem com_send_command_checksum_and_check_response
    (command address data b : Nat) :
    (com_send_command_packet command address data).getD 1 0 =
      ((((((((RTECOM_CHECKSUM
        ^^^ (com_send_command_packet command address data).getD 2 0)
        ^^^ (com_send_command_packet command address data).getD 3 0)
        ^^^ (com_send_command_packet command address data).getD 4 0)
        ^^^ (com_send_command_packet command address data).getD 5 0)
        ^^^ (com_send_command_packet command address data).getD 6 0)
        ^^^ (com_send_command_packet command address data).getD 7 0)
        ^^^ (com_send_command_packet command address data).getD 8 0)
        ^^^ (com_send_command_packet command address data).getD 9 0)
    ∧ check_response RTECOM_WRITE_RTEDBG (some b) =
        (if b = RTECOM_ACK then RTE_OK else RTE_ERROR)
    ∧ check_response RTECOM_WRITE_RTEDBG none = RTE_ERROR := by
  refine ⟨?_, ?_, rfl⟩
  · simp [com_send_command_packet, packet_checksum, addr_data_bytes, le_bytes4]
  · by_cases h : b = RTECOM_ACK
    · simp [check_response, h]
    · by_cases h2 : b = RTECOM_WRITE_RTEDBG <;> simp [check_response, h, h2]

/-! ### Address fields of write and read packets (C9)

`com_write_memory_block` sends `com_send_command(RTECOM_WRITE_RTEDBG, address / 4U, word)`
(the address transferred is that of a 32-bit word, not a byte), while
`com_read_memory_block` sends `com_send_command(RTECOM_READ_RTEDBG, address, length)`
with the byte address unchanged. -/

/-- Packet sent on the wire by `com_write_memory_block` for byte address
`address` and 32-bit value `word`. -/
def com_write_block_packet (address word : Nat) : List Nat :=
  com_send_command_packet RTECOM_WRITE_RTEDBG (address / 4) word

/-- Packet sent on the wire by `com_read_memory_block` for byte address
`address` and byte count `length`. -/
def com_read_block_packet (address length : Nat) : List Nat :=
  com_send_command_packet RTECOM_READ_RTEDBG address length

/-- The 32-bit address field of a transmitted packet (bytes 2..5, little-endian). -/
def packet_address_field (p : List Nat) : Nat :=
  p.getD 2 0 + 256 * (p.getD 3 0 + 256 * (p.getD 4 0 + 256 * p.getD 5 0))

theorem packet_address_field_com_send (command address data : Nat) :
    packet_address_field (com_send_command_packet command address data) = address % 2 ^ 32 := by
  simp only [packet_address_field, com_send_command_packet, addr_data_bytes, le_bytes4,
    le_byte, List.getD, List.get?, Option.getD, List.cons_append]
  omega

/-- C9: the address field of every single-word write packet is the byte
address divided by 4 (the 32-bit word index), the address field of every
read packet is the byte address unchanged, and consequently the same
address-field value (here 4) designates different byte addresses for a
write (byte 16) and for a read (byte 4). -/
theorem write_packet_word_index_read_packet_byte_address (address word length : Nat) :
    packet_address_field (com_write_block_packet address word) = address / 4 % 2 ^ 32
    ∧ packet_address_field (com_read_block_packet address length) = address % 2 ^ 32
    ∧ packet_address_field (com_write_block_packet 16 word) =
        packet_address_field (com_read_block_packet 4 length)
    ∧ (16 : Nat) ≠ 4 := by
  refine ⟨?_, ?_, ?_, by decide⟩
  · exact packet_address_field_com_send ..
  · exact packet_address_field_com_send ..
  · rw [com_write_block_packet, com_read_block_packet,
      packet_address_field_com_send, packet_address_field_com_send]

/-! ### `com_read_memory` (com_lib.cpp): chunked reads

The target's memory is the oracle `mem : Nat → Nat` (byte value at each byte
address); `rok address size` tells whether the round trip for the chunk
request at `address` of `size` bytes succeeds (command sent, echo verified,
`size` bytes received in time).  A successful block read delivers the `size`
bytes of target memory starting at `address`. -/

/-- The reference one-shot read: the `length` bytes of target memory
starting at byte address `address`. -/
def read_bytes (mem : Nat → Nat) (address length : Nat) : List Nat :=
  (List.range length).map fun i => mem (address + i)

/-- `com_read_memory_block`: rejects a length of zero or above
`RTECOM_MAX_RECV_LEN`, otherwise sends `RTECOM_READ_RTEDBG` and receives
exactly `length` bytes; `none` is any failed round trip. -/
def com_read_memory_block (mem : Nat → Nat) (rok : Nat → Nat → Bool)
    (address length : Nat) : Option (List Nat) :=
  if length > RTECOM_MAX_RECV_LEN ∨ length = 0 then none
  else if rok address length then some (read_bytes mem address length)
  else none

/-- The chunk loop of `com_read_memory`: per iteration the chunk size is
`length` capped at `max_size`, the block is read, and buffer/address advance
by the chunk size.  `fuel` bounds the number of iterations; the wrapper
passes `length`, which is enough whenever `max_size ≥ 1` (with
`max_size = 0` the C loop would never terminate, and the model returns
`none` once the fuel is exhausted). -/
def com_read_loop (mem : Nat → Nat) (rok : Nat → Nat → Bool) (max_size : Nat) :
    Nat → Nat → Nat → Option (List Nat)
  | _, _, 0 => some []
  | 0, _, _ + 1 => none
  | fuel + 1, address, l + 1 =>
    let length := l + 1
    let size := if length > max_size then max_size else length
    match com_read_memory_block mem rok address size with
    | none => none
    | some chunk =>
      match com_read_loop mem rok max_size fuel (address + size) (length - size) with
      | none => none
      | some rest => some (chunk ++ rest)

/-- `com_read_memory`: the maximal chunk size is
`min(parameters.max_message_size, RTECOM_MAX_RECV_LEN)`. -/
def com_read_memory (mem : Nat → Nat) (rok : Nat → Nat → Bool)
    (max_message_size address length : Nat) : Option (List Nat) :=
  com_read_loop mem rok (min max_message_size RTECOM_MAX_RECV_LEN) length address length

theorem read_bytes_append (mem : Nat → Nat) (address s t : Nat) :
    read_bytes mem address (s + t) =
      read_bytes mem address s ++ read_bytes mem (address + s) t := by
  simp only [read_bytes, List.range_add, List.map_append, List.map_map]
  congr 1
  apply List.map_congr_left
  intro i _
  simp only [Function.comp_apply]
  ring_nf

theorem com_read_loop_eq_read_bytes (mem : Nat → Nat) (rok : Nat → Nat → Bool)
    (max_size : Nat) (h1 : 1 ≤ max_size) (h2 : max_size ≤ RTECOM_MAX_RECV_LEN) :
    ∀ fuel address length out, length ≤ fuel →
      com_read_loop mem rok max_size fuel address length = some out →
      out = read_bytes mem address length := by
  intro fuel
  induction fuel with
  | zero =>
    intro address length out hle hloop
    interval_cases length
    simp only [com_read_loop, Option.some.injEq] at hloop
    simp [← hloop, read_bytes]
  | succ n ih =>
    intro address length out hle hloop
    match length with
    | 0 =>
      simp only [com_read_loop, Option.some.injEq] at hloop
      simp [← hloop, read_bytes]
    | l + 1 =>
      simp only [com_read_loop] at hloop
      set size := if l + 1 > max_size then max_size else l + 1 with hsize
      have hpos : 1 ≤ size := by
        rw [hsize]; split <;> omega
      have hle' : size ≤ l + 1 := by
        rw [hsize]; split <;> omega
      have hcap : size ≤ RTECOM_MAX_RECV_LEN := by
        rw [hsize]; split <;> omega
      rw [com_read_memory_block, if_neg (by omega)] at hloop
      by_cases hok : rok address size
      · rw [if_pos hok] at hloop
        simp only at hloop
        cases hrest : com_read_loop mem rok max_size n (address + size) (l + 1 - size) with
        | none => rw [hrest] at hloop; simp at hloop
        | some rest =>
          rw [hrest] at hloop
          simp only [Option.some.injEq] at hloop
          have := ih (address + size) (l + 1 - size) rest (by omega) hrest
          rw [← hloop, this]
          have : l + 1 = size + (l + 1 - size) := by omega
          rw [this, read_bytes_append, Nat.add_sub_cancel_left]
      · rw [if_neg hok] at hloop
        simp at hloop

/-- C5: for every target memory, start address, total length and positive
configured chunk-size bound, a `com_read_memory` that succeeds yields a
buffer byte-identical to the one-shot read of the same bytes (each chunk
starting at the base address plus the sum of the preceding chunk sizes, so
the concatenation of the chunks is the one-shot read). -/
theorem com_read_memory_chunking_eq_one_shot (mem : Nat → Nat) (rok : Nat → Nat → Bool)
    (max_message_size address length : Nat) (out : List Nat)
    (hpos : 1 ≤ max_message_size)
    (hok : com_read_memory mem rok max_message_size address length = some out) :
    out = read_bytes mem address length := by
  refine com_read_loop_eq_read_bytes mem rok (min max_message_size RTECOM_MAX_RECV_LEN)
    ?_ (Nat.min_le_right ..) length address length out (Nat.le_refl _) hok
  have : 1 ≤ RTECOM_MAX_RECV_LEN := by decide
  omega

/-- Witness for C5: a concrete chunked read (chunk bound 4, ten bytes read
from address 100 of the memory `i % 7`, chunks 4+4+2) succeeds and its
result equals the one-shot read. -/
theorem com_read_memory_chunking_eq_one_shot_witness :
    [2, 3, 4, 5, 6, 0, 1, 2, 3, 4] = read_bytes (fun i => i % 7) 100 10 :=
  com_read_memory_chunking_eq_one_shot (fun i => i % 7) (fun _ _ => true) 4 100 10
    [2, 3, 4, 5, 6, 0, 1, 2, 3, 4] (by decide) (by decide)

/-! ### `com_write_memory` (com_lib.cpp): word-by-word writes

The response oracle `resp wordIndex value` is the single byte (if any) the
target returns to the write command carrying that word index and value;
`none` covers a failed send/echo round trip as well as a missing response
byte.  Each transmission attempt is recorded in the trace as the pair
(word index sent in the address field, 32-bit value sent). -/

/-- `*((uint32_t *)buffer)` on a little-endian host: the first four bytes of
the buffer as a 32-bit word. -/
def buffer_word (buffer : List Nat) : Nat := le_word (buffer.take 4)

/-- The words of the first `n * 4` bytes of a buffer, in order. -/
def le_words (buffer : List Nat) : Nat → List Nat
  | 0 => []
  | n + 1 => buffer_word buffer :: le_words (buffer.drop 4) n

/-- `com_write_memory_block`: only a fixed length of 4 and a word-aligned
address are accepted; the command `RTECOM_WRITE_RTEDBG` is sent with the
word index `address / 4` and the buffer word, then the single response byte
is checked.  Returns the result and the transmission attempted (if any). -/
def com_write_memory_block (resp : Nat → Nat → Option Nat) (buffer : List Nat)
    (address length : Nat) : Nat × Option (Nat × Nat) :=
  if length ≠ 4 ∨ address % 4 ≠ 0 then (RTE_ERROR, none)
  else
    let w := buffer_word buffer
    (check_response RTECOM_WRITE_RTEDBG (resp (address / 4) w), some (address / 4, w))

/-- The loop of `com_write_memory` over `n` remaining words: each iteration
writes one 4-byte word via `com_write_memory_block` and stops at the first
failure.  The address is a 32-bit `unsigned`, so `address += 4U` wraps
modulo `2 ^ 32`. -/
def com_write_loop (resp : Nat → Nat → Option Nat) :
    Nat → List Nat → Nat → Nat × List (Nat × Nat)
  | 0, _, _ => (RTE_OK, [])
  | n + 1, buffer, address =>
    match com_write_memory_block resp buffer address 4 with
    | (r, sent) =>
      if r = RTE_OK then
        match com_write_loop resp n (buffer.drop 4) ((address + 4) % 2 ^ 32) with
        | (r', tr) => (r', sent.toList ++ tr)
      else (RTE_ERROR, sent.toList)

/-- `com_write_memory`: rejects a length or address not divisible by 4
before transmitting anything, otherwise writes the buffer word by word. -/
def com_write_memory (resp : Nat → Nat → Option Nat) (buffer : List Nat)
    (address length : Nat) : Nat × List (Nat × Nat) :=
  if length % 4 ≠ 0 then (RTE_ERROR, [])
  else if address % 4 ≠ 0 then (RTE_ERROR, [])
  else com_write_loop resp (length / 4) buffer address

/-- Follows the spec's words: a multi-word write is a sequence of
independent single-word writes at successive word addresses, each requiring
success (ACK) before the next is sent, and any failure aborts the remaining
sequence with an error.  The word addresses are indices of 32-bit words in
the 32-bit byte address space (the byte address wraps modulo `2 ^ 32`), so
the successor of a word address is taken modulo `2 ^ 30`. -/
def seq_single_word_writes (ack : Nat → Nat → Bool) :
    List Nat → Nat → Nat × List (Nat × Nat)
  | [], _ => (RTE_OK, [])
  | w :: ws, wordAddress =>
    if ack wordAddress w then
      match seq_single_word_writes ack ws ((wordAddress + 1) % 2 ^ 30) with
      | (r, tr) => (r, (wordAddress, w) :: tr)
    else (RTE_ERROR, [(wordAddress, w)])

theorem check_response_write_eq (o : Option Nat) :
    check_response RTECOM_WRITE_RTEDBG o =
      if o = some RTECOM_ACK then RTE_OK else RTE_ERROR := by
  cases o with
  | none => simp [check_response]
  | some b =>
    by_cases hb : b = RTECOM_ACK
    · simp [check_response, hb]
    · simp only [check_response, if_neg hb, Option.some.injEq, if_neg hb]
      split <;> rfl

theorem com_write_loop_eq_seq (resp : Nat → Nat → Option Nat) :
    ∀ (n : Nat) (buffer : List Nat) (address : Nat), address % 4 = 0 →
      com_write_loop resp n buffer address =
        seq_single_word_writes (fun wa w => resp wa w = some RTECOM_ACK)
          (le_words buffer n) (address / 4) := by
  intro n
  induction n with
  | zero => intro buffer address _; rfl
  | succ m ih =>
    intro buffer address halign
    have hnext : (address + 4) % 2 ^ 32 % 4 = 0 := by omega
    have hdiv : (address + 4) % 2 ^ 32 / 4 = (address / 4 + 1) % 2 ^ 30 := by omega
    rw [com_write_loop, le_words, seq_single_word_writes, com_write_memory_block,
      if_neg (by omega)]
    simp only [check_response_write_eq]
    by_cases hack : resp (address / 4) (buffer_word buffer) = some RTECOM_ACK
    · simp only [hack, if_pos rfl, decide_True, if_true,
        ih (buffer.drop 4) ((address + 4) % 2 ^ 32) hnext, hdiv, Option.toList_some,
        List.singleton_append]
    · simp only [if_neg hack]
      rw [if_neg (by decide)]
      simp [hack]

/-- C7: `com_write_memory` returns an error with nothing transmitted when
the length or the address is not divisible by 4; otherwise it equals the
sequence of independent single 4-byte word writes at successive word
addresses (successive 32-bit word indices, as the 32-bit byte address
advances by 4 and wraps) in which each word must be acknowledged before the
next is sent and any failure aborts the remainder. -/
theorem com_write_memory_word_sequence (resp : Nat → Nat → Option Nat)
    (buffer : List Nat) (address length : Nat) :
    com_write_memory resp buffer address length =
      if length % 4 ≠ 0 ∨ address % 4 ≠ 0 then (RTE_ERROR, [])
      else seq_single_word_writes (fun wa w => resp wa w = some RTECOM_ACK)
        (le_words buffer (length / 4)) (address / 4) := by
  rw [com_write_memory]
  by_cases hl : length % 4 = 0
  · by_cases ha : address % 4 = 0
    · rw [if_neg (by omega), if_neg (by omega), if_neg (by simp [hl, ha])]
      exact com_write_loop_eq_seq resp (length / 4) buffer address ha
    · rw [if_neg (by omega), if_pos (by omega), if_pos (by simp [ha])]
  · rw [if_pos (by omega), if_pos (by simp [hl])]

/-! ### Bridge wrappers (bridge.cpp) and zero-length transfers -/

/-- Outcome of a Bridge call: either the local input-validation failure
(`RTE_ERROR` with `last_error = ERR_BAD_INPUT_DATA`, nothing dispatched), or
the dispatched transport call's own outcome. -/
inductive PortOutcome (α : Type) where
  | badInput : PortOutcome α
  | dispatched : α → PortOutcome α
deriving DecidableEq

/-- `port_read_memory` (COM interface active): validates `length ≥ 1` and a
non-null buffer before dispatching to `com_read_memory`. -/
def port_read_memory (mem : Nat → Nat) (rok : Nat → Nat → Bool)
    (max_message_size : Nat) (buffer_null : Bool) (address length : Nat) :
    PortOutcome (Option (List Nat)) :=
  if length < 1 ∨ buffer_null then .badInput
  else .dispatched (com_read_memory mem rok max_message_size address length)

/-- `port_write_memory` (COM interface active): validates `length ≥ 1` and a
non-null buffer before dispatching to `com_write_memory`. -/
def port_write_memory (resp : Nat → Nat → Option Nat) (buffer : List Nat)
    (buffer_null : Bool) (address length : Nat) :
    PortOutcome (Nat × List (Nat × Nat)) :=
  if length < 1 ∨ buffer_null then .badInput
  else .dispatched (com_write_memory resp buffer address length)

/-- Counterexample to C10 as stated: called directly with length 0 at the
misaligned address 1, `com_write_memory` does not return success — the
address-alignment check fails first. -/
theorem com_write_memory_zero_length_misaligned_fails :
    (com_write_memory (fun _ _ => none) [] 1 0).1 ≠ RTE_OK := by decide

/-- C10 (amended): with length 0, `com_read_memory` succeeds immediately
with no bytes for every address and oracle (even a chunk bound of 0), and
`com_write_memory` transmits nothing and succeeds whenever its up-front
alignment check passes (a misaligned address still fails it); the Bridge
wrappers `port_read_memory` and `port_write_memory` instead reject length 0
with a bad-input fault before dispatching. -/
theorem zero_length_transfers (mem : Nat → Nat) (rok : Nat → Nat → Bool)
    (resp : Nat → Nat → Option Nat) (buffer : List Nat)
    (max_message_size : Nat) (buffer_null : Bool) (address : Nat) :
    com_read_memory mem rok max_message_size address 0 = some []
    ∧ com_write_memory resp buffer address 0 =
        (if address % 4 ≠ 0 then RTE_ERROR else RTE_OK, [])
    ∧ port_read_memory mem rok max_message_size buffer_null address 0 = .badInput
    ∧ port_write_memory resp buffer buffer_null address 0 = .badInput := by
  refine ⟨rfl, ?_, ?_, ?_⟩
  · rw [com_write_memory]
    by_cases ha : address % 4 = 0
    · rw [if_neg (by omega), if_neg (by omega), if_neg (by omega)]
      rfl
    · rw [if_neg (by omega), if_pos (by omega), if_pos (by omega)]
  · rw [port_read_memory, if_pos (by omega)]
  · rw [port_write_memory, if_pos (by omega)]

/-! ### The `g_rtedbg` control header

Modelled from the spec: the header type `rtedbg_header_t` is declared in
`rtedbg.h`, which is not among the repository's sources (only its users
are).  The spec's data model lists its fields: last write index, active
filter mask, filter backup value, buffer capacity in words, timestamp clock
frequency, and the mode/configuration word — six 32-bit fields. -/
structure RtedbgHeader where
  last_index : Nat
  filter : Nat
  filter_copy : Nat
  buffer_size : Nat
  timestamp_frequency : Nat
  rte_cfg : Nat
deriving DecidableEq

/-- Modelled from the spec: `sizeof(rtedbg_header_t)` for the six-field
header above — six 32-bit words. -/
def sizeof_rtedbg_header : Nat := 24

/-! ### `load_rtedbg_structure_header` (RTEgetData.cpp): size auto-discovery -/

/-- The distinct exit points of `load_rtedbg_structure_header`. -/
inductive LoadResult where
  | readError      -- header could not be read from the target
  | sizeTooSmall   -- computed size below MIN_BUFFER_SIZE
  | sizeTooLarge   -- computed size above MAX_BUFFER_SIZE
  | allocError     -- memory for the mirror buffer could not be allocated
  | ok
deriving DecidableEq

/-- `load_rtedbg_structure_header`: reads the header (`read_ok`, `header`
oracles), recomputes `buffer_size * 4U + sizeof(rtedbg_header_t)` — a
32-bit `unsigned` computation, so the value is reduced modulo `2 ^ 32` —
when the configured size is 0 or differs, enforces the bounds before any
(re)allocation, and finally allocates the mirror buffer (`alloc_ok`
oracle).  Returns the result and the updated `parameters.size`. -/
def load_rtedbg_structure_header (read_ok : Bool) (header : RtedbgHeader)
    (param_size : Nat) (alloc_ok : Bool) : LoadResult × Nat :=
  if !read_ok then (.readError, param_size)
  else
    let new_size := (header.buffer_size * 4 + sizeof_rtedbg_header) % 2 ^ 32
    if param_size = 0 ∨ new_size ≠ param_size then
      if new_size < MIN_BUFFER_SIZE then (.sizeTooSmall, new_size)
      else if new_size > MAX_BUFFER_SIZE then (.sizeTooLarge, new_size)
      else if alloc_ok then (.ok, new_size) else (.allocError, new_size)
    else if alloc_ok then (.ok, param_size) else (.allocError, param_size)

/-- Counterexample to C2 as stated: `RTEgetData.cpp:990` computes the size
in 32-bit `unsigned` arithmetic.  For a freshly discovered size (configured
size 0) and capacity `2 ^ 30 + 64` words, the size computed in unbounded
arithmetic, `(2 ^ 30 + 64) * 4 + 24 = 2 ^ 32 + 280`, is above
`MAX_BUFFER_SIZE`, yet the function accepts the header (no error) and the
stored size is the wrapped 280, not that value. -/
theorem load_rtedbg_structure_header_unbounded_size_refuted :
    (1073741888 : Nat) * 4 + sizeof_rtedbg_header > 2100000
    ∧ (load_rtedbg_structure_header true ⟨0, 0, 0, 1073741888, 0, 0⟩ 0 true).1 = .ok
    ∧ (load_rtedbg_structure_header true ⟨0, 0, 0, 1073741888, 0, 0⟩ 0 true).2 ≠
        1073741888 * 4 + sizeof_rtedbg_header := by
  refine ⟨by decide, by decide, by decide⟩

/-- C2 (amended): whenever the configured size is 0 or differs from the
freshly computed `buffer_size * 4 + sizeof(rtedbg_header_t)` — computed in
32-bit unsigned arithmetic, i.e. reduced modulo `2 ^ 32` — the size is set
to the computed value; a computed size below 80 or above 2100000 yields the
corresponding size error for every allocation outcome (allocation is never
reached), and a computed size inside the bounds is never rejected for its
size. -/
theorem load_rtedbg_structure_header_size_discovery (header : RtedbgHeader)
    (param_size : Nat) (alloc_ok : Bool)
    (hfresh : param_size = 0 ∨
      (header.buffer_size * 4 + sizeof_rtedbg_header) % 2 ^ 32 ≠ param_size) :
    (load_rtedbg_structure_header true header param_size alloc_ok).2 =
        (header.buffer_size * 4 + sizeof_rtedbg_header) % 2 ^ 32
    ∧ ((header.buffer_size * 4 + sizeof_rtedbg_header) % 2 ^ 32 < 80 →
        (load_rtedbg_structure_header true header param_size alloc_ok).1 = .sizeTooSmall)
    ∧ ((header.buffer_size * 4 + sizeof_rtedbg_header) % 2 ^ 32 > 2100000 →
        (load_rtedbg_structure_header true header param_size alloc_ok).1 = .sizeTooLarge)
    ∧ (80 ≤ (header.buffer_size * 4 + sizeof_rtedbg_header) % 2 ^ 32 →
        (header.buffer_size * 4 + sizeof_rtedbg_header) % 2 ^ 32 ≤ 2100000 →
        (load_rtedbg_structure_header true header param_size alloc_ok).1 ≠ .sizeTooSmall
        ∧ (load_rtedbg_structure_header true header param_size alloc_ok).1 ≠ .sizeTooLarge) := by
  rw [load_rtedbg_structure_header]
  simp only [Bool.not_true, Bool.false_eq_true, if_false, if_pos hfresh]
  have hmin : MIN_BUFFER_SIZE = 80 := by decide
  have hmax : MAX_BUFFER_SIZE = 2100000 := by decide
  refine ⟨?_, ?_, ?_, ?_⟩
  · split
    · rfl
    · split
      · rfl
      · split <;> rfl
  · intro hsmall
    rw [if_pos (by omega)]
  · intro hlarge
    rw [if_neg (by omega), if_pos (by omega)]
  · intro hlo hhi
    rw [if_neg (by omega), if_neg (by omega)]
    constructor <;> (split <;> simp)

/-- Witness for C2 (amended): size 0 configured (auto-discover), capacity
10 words → computed size 64 < 80 is rejected as too small with the size
recorded, for a successful allocation oracle; capacity 100 words → 424 is
in bounds and not size-rejected. -/
theorem load_rtedbg_structure_header_size_discovery_witness :
    ((0 : Nat) = 0 ∨ ((10 : Nat) * 4 + sizeof_rtedbg_header) % 2 ^ 32 ≠ 0)
    ∧ (load_rtedbg_structure_header true ⟨0, 0, 0, 10, 0, 0⟩ 0 true).1 = .sizeTooSmall
    ∧ (load_rtedbg_structure_header true ⟨0, 0, 0, 100, 0, 0⟩ 0 true).1 ≠ .sizeTooSmall := by
  have h10 : ((0 : Nat) = 0 ∨ ((10 : Nat) * 4 + sizeof_rtedbg_header) % 2 ^ 32 ≠ 0) :=
    Or.inl rfl
  refine ⟨h10, ?_, ?_⟩
  · exact (load_rtedbg_structure_header_size_discovery ⟨0, 0, 0, 10, 0, 0⟩ 0 true
      h10).2.1 (by decide)
  · exact ((load_rtedbg_structure_header_size_discovery ⟨0, 0, 0, 100, 0, 0⟩ 0 true
      (Or.inl rfl)).2.2.2 (by decide) (by decide)).1

/-! ### `check_header_info` (RTEgetData.cpp): header validation

Modelled from the spec: the macros `RTE_HEADER_SIZE`, `RTE_CFG_RESERVED_BITS`
and `RTE_CFG_RESERVED2` come from `rtedbg.h`, which is not among the
repository's sources.  Per the spec, the serialized header size and the
reserved configuration bit-fields are extracted from the fetched
configuration word and must equal compile-time constants / zero.  The
extraction functions are abstracted as parameters. -/

/-- The test of `check_header_info`: error whenever the compile-time header
size differs from the serialized size announced by the target or either
reserved bit-field is non-zero. -/
def check_header_info_core (size_of serialized_size reserved_bits reserved2 : Nat) : Nat :=
  if size_of ≠ serialized_size ∨ reserved_bits ≠ 0 ∨ reserved2 ≠ 0 then RTE_ERROR
  else RTE_OK

/-- `check_header_info`, with the three `rtedbg.h` extraction macros
abstracted as the functions `serial_size`, `res_bits` and `res2` of the
fetched configuration word. -/
def check_header_info (serial_size res_bits res2 : Nat → Nat) (h : RtedbgHeader) : Nat :=
  check_header_info_core sizeof_rtedbg_header
    (serial_size h.rte_cfg) (res_bits h.rte_cfg) (res2 h.rte_cfg)

/-- C6: `check_header_info` succeeds exactly when the serialized header size
equals the compile-time constant and both reserved bit-fields are zero, and
it returns an error otherwise; its verdict is unchanged by every header
field other than the configuration word the three checks are drawn from. -/
theorem check_header_info_reserved_and_size (serial_size res_bits res2 : Nat → Nat)
    (h h2 : RtedbgHeader) (hcfg : h.rte_cfg = h2.rte_cfg) :
    (check_header_info serial_size res_bits res2 h = RTE_OK ↔
      (serial_size h.rte_cfg = sizeof_rtedbg_header
        ∧ res_bits h.rte_cfg = 0 ∧ res2 h.rte_cfg = 0))
    ∧ (check_header_info serial_size res_bits res2 h ≠ RTE_OK →
        check_header_info serial_size res_bits res2 h = RTE_ERROR)
    ∧ check_header_info serial_size res_bits res2 h =
        check_header_info serial_size res_bits res2 h2 := by
  refine ⟨?_, ?_, by rw [check_header_info, check_header_info, hcfg]⟩
  · rw [check_header_info, check_header_info_core]
    constructor
    · intro hOK
      by_contra hne
      rw [if_pos (by omega)] at hOK
      exact absurd hOK (by decide)
    · intro ⟨h1, hr1, hr2⟩
      rw [if_neg (by omega)]
  · intro hne
    rw [check_header_info, check_header_info_core] at hne ⊢
    split at hne
    next hc => rw [if_pos hc]
    next => exact absurd rfl hne

/-- Witness for C6: a header whose configuration word decodes to the right
serialized size and zero reserved fields passes; changing every other field
leaves the verdict unchanged. -/
theorem check_header_info_reserved_and_size_witness :
    (check_header_info (fun _ => sizeof_rtedbg_header) (fun _ => 0) (fun _ => 0)
        ⟨1, 2, 3, 4, 5, 6⟩ = RTE_OK ↔
      ((fun _ : Nat => sizeof_rtedbg_header) 6 = sizeof_rtedbg_header
        ∧ (fun _ : Nat => (0 : Nat)) 6 = 0 ∧ (fun _ : Nat => (0 : Nat)) 6 = 0))
    ∧ (check_header_info (fun _ => sizeof_rtedbg_header) (fun _ => 0) (fun _ => 0)
        ⟨1, 2, 3, 4, 5, 6⟩ ≠ RTE_OK →
        check_header_info (fun _ => sizeof_rtedbg_header) (fun _ => 0) (fun _ => 0)
          ⟨1, 2, 3, 4, 5, 6⟩ = RTE_ERROR)
    ∧ check_header_info (fun _ => sizeof_rtedbg_header) (fun _ => 0) (fun _ => 0)
        ⟨1, 2, 3, 4, 5, 6⟩ =
      check_header_info (fun _ => sizeof_rtedbg_header) (fun _ => 0) (fun _ => 0)
        ⟨9, 8, 7, 6, 5, 6⟩ :=
  check_header_info_reserved_and_size (fun _ => sizeof_rtedbg_header) (fun _ => 0)
    (fun _ => 0) ⟨1, 2, 3, 4, 5, 6⟩ ⟨9, 8, 7, 6, 5, 6⟩ rfl

/-! ### `set_or_restore_message_filter` (RTEgetData.cpp) -/

/-- The filter value `set_or_restore_message_filter` writes back to
`MESSAGE_FILTER_ADDRESS`: starts from the pre-pause value `old_msg_filter`,
replaced by the header's backup `filter_copy` when it is zero and the
firmware supports filter-off semantics (`RTE_FILTER_OFF_ENABLED`, a
`rtedbg.h` capability abstracted as a Boolean), and finally overridden by
the user-requested value when `parameters.set_filter` is set. -/
def set_or_restore_filter_value (old_msg_filter : Nat) (filter_off_enabled : Bool)
    (header : RtedbgHeader) (user_set_filter : Bool) (user_filter : Nat) : Nat :=
  let old1 := if old_msg_filter = 0 ∧ filter_off_enabled then header.filter_copy
    else old_msg_filter
  if user_set_filter then user_filter else old1

/-- C4: the written filter value follows the precedence — the user override
whenever its flag is set; otherwise the pre-pause value when non-zero;
otherwise the header's backup `filter_copy` when the firmware supports
filter-off semantics (and the pre-pause zero itself when it does not). -/
theorem set_or_restore_filter_value_precedence (old_msg_filter : Nat)
    (filter_off_enabled : Bool) (header : RtedbgHeader)
    (user_set_filter : Bool) (user_filter : Nat) :
    set_or_restore_filter_value old_msg_filter filter_off_enabled header
        user_set_filter user_filter =
      if user_set_filter then user_filter
      else if old_msg_filter ≠ 0 then old_msg_filter
      else if filter_off_enabled then header.filter_copy
      else old_msg_filter := by
  rw [set_or_restore_filter_value]
  by_cases hu : user_set_filter
  · simp [hu]
  · by_cases ho : old_msg_filter = 0
    · by_cases hf : filter_off_enabled <;> simp [hu, ho, hf]
    · simp [hu, ho]

/-! ### `single_data_transfer` (RTEgetData.cpp)

The snapshot sequence is modelled as a trace of its externally visible
steps; the oracle supplies the outcome of every target or file interaction.
The event alphabet includes `fileDeleted` so that the retention of the
output file is expressible: no path of the source ever removes the file
(there is no `remove`/`DeleteFile` call), so no branch emits it. -/

/-- The distinct exit points of `save_rtedbg_structure`. -/
inductive SaveOutcome where
  | readFail    -- the big read of the structure failed; no file created
  | createFail  -- the output file could not be created (after the lock retries)
  | writeFail   -- the file was created but could not be written completely
  | ok
deriving DecidableEq

inductive TransferEv where
  | drain          -- port_handle_unexpected_messages
  | readFilter     -- read of the live message filter before pausing
  | pauseWrite     -- write of a zero filter (pause_data_logging)
  | loadHeader     -- load_rtedbg_structure_header
  | checkHeader    -- check_header_info
  | fileWritten    -- snapshot file completely written
  | fileDeleted    -- never emitted: no path deletes the output file
  | recheckFilter  -- re-read of the live filter (data_logging_disabled)
  | resetBuffer    -- reset_circular_buffer (its failure only prints)
  | restoreWrite   -- set_or_restore_message_filter
  | decodeBatch    -- execute_decode_batch_file
deriving DecidableEq

/-- Oracle for one run of `single_data_transfer`: results of each target and
file interaction, in program order. -/
structure TransferOracle where
  filter1 : Option Nat        -- first read of the live filter (none = read failed)
  pause_ok : Bool             -- result of the pause write (consulted only if filter1 ≠ 0)
  header_read_ok : Bool
  header : RtedbgHeader
  param_size : Nat
  alloc_ok : Bool
  serial_size : Nat → Nat     -- check_header_info extraction oracles
  res_bits : Nat → Nat
  res2 : Nat → Nat
  save : SaveOutcome
  filter2 : Option Nat        -- re-read of the live filter after the file is written
  restore_ok : Bool

/-- Continuation of `single_data_transfer` after the pause step, with the
trace accumulated so far. -/
def sdt_after_pause (σ : TransferOracle) (pre : List TransferEv) : Nat × List TransferEv :=
  if (load_rtedbg_structure_header σ.header_read_ok σ.header σ.param_size σ.alloc_ok).1
      ≠ .ok then
    (RTE_ERROR, pre ++ [.loadHeader])
  else if check_header_info σ.serial_size σ.res_bits σ.res2 σ.header ≠ RTE_OK then
    (RTE_ERROR, pre ++ [.loadHeader, .checkHeader])
  else
    match σ.save with
    | .ok =>
      if σ.filter2 ≠ some 0 then
        -- the firmware re-enabled logging (or the filter could not be read):
        -- restore the filter, report the consistency failure; the file stays
        (RTE_ERROR,
          pre ++ [.loadHeader, .checkHeader, .fileWritten, .recheckFilter, .restoreWrite])
      else if !σ.restore_ok then
        (RTE_ERROR,
          pre ++ [.loadHeader, .checkHeader, .fileWritten, .recheckFilter, .resetBuffer,
            .restoreWrite])
      else
        (RTE_OK,
          pre ++ [.loadHeader, .checkHeader, .fileWritten, .recheckFilter, .resetBuffer,
            .restoreWrite, .decodeBatch])
    | _ =>
      -- save failed: restore the filter and report the error
      (RTE_ERROR, pre ++ [.loadHeader, .checkHeader, .restoreWrite])

/-- `single_data_transfer`: drain, read filter, pause if it was non-zero,
then the header/copy/consistency/restore sequence. -/
def single_data_transfer (σ : TransferOracle) : Nat × List TransferEv :=
  match σ.filter1 with
  | none => (RTE_ERROR, [.drain, .readFilter])
  | some old_filter =>
    if old_filter ≠ 0 then
      if !σ.pause_ok then (RTE_ERROR, [.drain, .readFilter, .pauseWrite])
      else sdt_after_pause σ [.drain, .readFilter, .pauseWrite]
    else sdt_after_pause σ [.drain, .readFilter]

/-- C3: once the snapshot file has been written, the live filter is re-read;
if it is non-zero or cannot be read, the transfer returns an error, yet the
trace keeps the `fileWritten` event and never contains `fileDeleted` — the
output file is retained. -/
theorem single_data_transfer_retains_file_on_filter_race (σ : TransferOracle) (f : Nat)
    (h1 : σ.filter1 = some f)
    (h2 : f ≠ 0 → σ.pause_ok = true)
    (h3 : (load_rtedbg_structure_header σ.header_read_ok σ.header σ.param_size σ.alloc_ok).1
        = .ok)
    (h4 : check_header_info σ.serial_size σ.res_bits σ.res2 σ.header = RTE_OK)
    (h5 : σ.save = .ok)
    (h6 : σ.filter2 ≠ some 0) :
    (single_data_transfer σ).1 = RTE_ERROR
    ∧ TransferEv.fileWritten ∈ (single_data_transfer σ).2
    ∧ TransferEv.recheckFilter ∈ (single_data_transfer σ).2
    ∧ TransferEv.fileDeleted ∉ (single_data_transfer σ).2 := by
  have hrest : ∀ pre, sdt_after_pause σ pre =
      (RTE_ERROR,
        pre ++ [.loadHeader, .checkHeader, .fileWritten, .recheckFilter, .restoreWrite]) := by
    intro pre
    rw [sdt_after_pause, if_neg (by rw [h3]; simp), if_neg (by rw [h4]; simp), h5]
    rw [if_pos h6]
  simp only [single_data_transfer, h1]
  by_cases hf : f = 0
  · rw [if_neg (by simp [hf]), hrest]
    exact ⟨rfl, by decide, by decide, by decide⟩
  · rw [if_pos hf, if_neg (by simp [h2 hf]), hrest]
    exact ⟨rfl, by decide, by decide, by decide⟩

/-- Witness for C3: a concrete run — live filter 3, every step up to the
file write succeeding, re-read filter 5 (firmware re-enabled logging) —
errors out while the trace retains the written file. -/
theorem single_data_transfer_retains_file_on_filter_race_witness :
    ((⟨some 3, true, true, ⟨0, 0, 0, 100, 0, 0⟩, 0, true,
        fun _ => sizeof_rtedbg_header, fun _ => 0, fun _ => 0,
        .ok, some 5, true⟩ : TransferOracle).filter1 = some 3)
    ∧ (single_data_transfer
        ⟨some 3, true, true, ⟨0, 0, 0, 100, 0, 0⟩, 0, true,
          fun _ => sizeof_rtedbg_header, fun _ => 0, fun _ => 0,
          .ok, some 5, true⟩).1 = RTE_ERROR
    ∧ TransferEv.fileWritten ∈ (single_data_transfer
        ⟨some 3, true, true, ⟨0, 0, 0, 100, 0, 0⟩, 0, true,
          fun _ => sizeof_rtedbg_header, fun _ => 0, fun _ => 0,
          .ok, some 5, true⟩).2
    ∧ TransferEv.fileDeleted ∉ (single_data_transfer
        ⟨some 3, true, true, ⟨0, 0, 0, 100, 0, 0⟩, 0, true,
          fun _ => sizeof_rtedbg_header, fun _ => 0, fun _ => 0,
          .ok, some 5, true⟩).2 := by
  have h := single_data_transfer_retains_file_on_filter_race
    ⟨some 3, true, true, ⟨0, 0, 0, 100, 0, 0⟩, 0, true,
      fun _ => sizeof_rtedbg_header, fun _ => 0, fun _ => 0, .ok, some 5, true⟩ 3
    rfl (fun _ => rfl) (by decide) (by decide) rfl (by decide)
  exact ⟨rfl, h.1, h.2.1, h.2.2.2⟩

/-! ### `switch_to_single_shot_logging` (RTEgetData.cpp)

The steps are modelled as a trace.  `RTE_SINGLE_SHOT_LOGGING_ENABLED` (the
firmware capability flag) and `RTE_ENABLE_SINGLE_SHOT_MODE` are `rtedbg.h`
macros not among the repository's sources; the capability flag is
abstracted as the oracle Boolean `cap_enabled`, the mode-bit update is the
host-local `setModeBit` step. -/

inductive SwitchEv where
  | loadHeader       -- load_rtedbg_structure_header (reads only)
  | checkCapability  -- test of RTE_SINGLE_SHOT_LOGGING_ENABLED (host-local)
  | pauseWrite       -- pause_data_logging: write a zero filter to the target
  | setModeBit       -- RTE_ENABLE_SINGLE_SHOT_MODE on the host copy of rte_cfg
  | writeConfig      -- write of the config word to the target
  | resetBuffer      -- reset_circular_buffer (may write to the target)
  | restoreWrite     -- set_or_restore_message_filter: write to the target
  | printMsg         -- user-visible console message
deriving DecidableEq, BEq

/-- Whether a step writes to the target (mutates target state). -/
def SwitchEv.mutates_target : SwitchEv → Bool
  | .pauseWrite | .writeConfig | .resetBuffer | .restoreWrite => true
  | _ => false

/-- Oracle for one run of `switch_to_single_shot_logging`. -/
structure SwitchOracle where
  header_read_ok : Bool
  header : RtedbgHeader
  param_size : Nat
  alloc_ok : Bool
  cap_enabled : Bool     -- RTE_SINGLE_SHOT_LOGGING_ENABLED
  write_cfg_ok : Bool
  reset_ok : Bool
  restore_ok : Bool

/-- `switch_to_single_shot_logging` as a step trace: load the header (bail
out on failure), test the capability flag (bail out with a message when
absent), pause logging (result ignored), set the mode bit on the host copy,
write the config word, reset the circular buffer, restore the filter; each
of the last three bails out on failure. -/
def switch_to_single_shot_logging (σ : SwitchOracle) : List SwitchEv :=
  if (load_rtedbg_structure_header σ.header_read_ok σ.header σ.param_size σ.alloc_ok).1
      ≠ .ok then
    [.loadHeader]
  else if !σ.cap_enabled then
    [.loadHeader, .checkCapability, .printMsg]
  else if !σ.write_cfg_ok then
    [.loadHeader, .checkCapability, .pauseWrite, .setModeBit, .writeConfig]
  else if !σ.reset_ok then
    [.loadHeader, .checkCapability, .pauseWrite, .setModeBit, .writeConfig, .resetBuffer]
  else if !σ.restore_ok then
    [.loadHeader, .checkCapability, .pauseWrite, .setModeBit, .writeConfig, .resetBuffer,
      .restoreWrite]
  else
    [.loadHeader, .checkCapability, .pauseWrite, .setModeBit, .writeConfig, .resetBuffer,
      .restoreWrite, .printMsg]

/-- Counterexample to C8 as stated: on a fully successful run (header read
and allocation fine, capability present, every write acknowledged) the
pause does not precede the capability check — the code tests
`RTE_SINGLE_SHOT_LOGGING_ENABLED` first and only then pauses logging. -/
theorem switch_to_single_shot_pause_not_before_capability :
    ¬ ((switch_to_single_shot_logging
          ⟨true, ⟨0, 0, 0, 100, 0, 0⟩, 0, true, true, true, true, true⟩).indexOf
        SwitchEv.pauseWrite <
      (switch_to_single_shot_logging
          ⟨true, ⟨0, 0, 0, 100, 0, 0⟩, 0, true, true, true, true, true⟩).indexOf
        SwitchEv.checkCapability) := by decide

/-- C8 (amended): `switch_to_single_shot_logging` performs, in order: check
the firmware capability flag, pause logging, set the single-shot mode bit,
write the config word, reset the circular buffer/index, restore the message
filter; and when the header fetch fails or the capability flag is absent,
no step that writes to the target is performed (only reads and a
user-visible message). -/
theorem switch_to_single_shot_order_and_noop (σ : SwitchOracle) :
    ((load_rtedbg_structure_header σ.header_read_ok σ.header σ.param_size σ.alloc_ok).1
        = .ok → σ.cap_enabled = true → σ.write_cfg_ok = true → σ.reset_ok = true →
        σ.restore_ok = true →
      switch_to_single_shot_logging σ =
        [.loadHeader, .checkCapability, .pauseWrite, .setModeBit, .writeConfig,
          .resetBuffer, .restoreWrite, .printMsg])
    ∧ ((load_rtedbg_structure_header σ.header_read_ok σ.header σ.param_size σ.alloc_ok).1
          ≠ .ok ∨ σ.cap_enabled = false →
        (switch_to_single_shot_logging σ).filter SwitchEv.mutates_target = []) := by
  constructor
  · intro hload hcap hcfg hreset hrestore
    rw [switch_to_single_shot_logging, if_neg (by rw [hload]; simp), hcap, hcfg, hreset,
      hrestore]
    rfl
  · intro hfail
    rw [switch_to_single_shot_logging]
    rcases hfail with hload | hcap
    · rw [if_pos hload]
      rfl
    · by_cases hload : (load_rtedbg_structure_header σ.header_read_ok σ.header σ.param_size
          σ.alloc_ok).1 = .ok
      · rw [if_neg (by rw [hload]; simp), hcap]
        rfl
      · rw [if_pos hload]
        rfl

/-- Witness for C8 (amended): the fully successful oracle yields exactly the
check-pause-set-write-reset-restore order, and an oracle without the
capability flag performs no target write. -/
theorem switch_to_single_shot_order_and_noop_witness :
    (switch_to_single_shot_logging ⟨true, ⟨0, 0, 0, 100, 0, 0⟩, 0, true, true, true,
        true, true⟩ =
      [.loadHeader, .checkCapability, .pauseWrite, .setModeBit, .writeConfig,
        .resetBuffer, .restoreWrite, .printMsg])
    ∧ (switch_to_single_shot_logging ⟨true, ⟨0, 0, 0, 100, 0, 0⟩, 0, true, false, true,
        true, true⟩).filter SwitchEv.mutates_target = [] := by
  constructor
  · exact (switch_to_single_shot_order_and_noop
      ⟨true, ⟨0, 0, 0, 100, 0, 0⟩, 0, true, true, true, true, true⟩).1
      (by decide) rfl rfl rfl rfl
  · exact (switch_to_single_shot_order_and_noop
      ⟨true, ⟨0, 0, 0, 100, 0, 0⟩, 0, true, false, true, true, true⟩).2 (Or.inr rfl)

end RTEgetData
